import Mathlib

/-!
Verification development for the GDAX WebSocket stream handler of `trade-rs`
(`src/api/gdax/wss.rs`), the shared protocol types (`src/api/mod.rs`) and the
HitBTC client (`src/api/hitbtc/mod.rs`).

The stateful message handler `HandlerImpl::parse_message` is embedded as a
pure step function from a handler state and an inbound frame to a new state,
a list of emitted notifications, and an optional fatal error.  Machine
integers (`Price`/`Size`, i.e. `i64` tick counts) are embedded as `Int`;
fallible operations return `Option`/an explicit error.  The tick-conversion
module (`crate::tick`), the timestamp module and the `NotificationFlags`
bitset live outside the provided sources, so they are modelled at their
interface: tick conversion and timestamp conversion are abstract fallible
functions carried by the state/environment, and flags are a bit mask with
the `bitflags` crate's `contains` contract (all requested bits set).
-/

namespace TradeRs

/-- `Side` from the crate root: `Bid` | `Ask` (spec section 3). -/
inductive Side where
  | Bid : Side
  | Ask : Side
deriving DecidableEq, Repr

/-- Prices and sizes are signed integer tick counts (`i64` in the source). -/
abbrev Price := Int

/-- Sizes are signed integer tick counts, like prices. -/
abbrev Size := Int

/-- `Timestamped<T>` from `src/api/mod.rs`: a value with a millisecond
wall-clock timestamp. -/
structure Timestamped (T : Type) where
  timestamp : Nat
  inner : T
deriving DecidableEq, Repr

/-- Modelled from the spec: `LimitUpdate` from `crate::order_book` (module not
in the provided sources; field shape as used in `wss.rs` and spec section 3):
one order-book level delta {side, price, size}. -/
structure LimitUpdate where
  side : Side
  price : Price
  size : Size
deriving DecidableEq, Repr

/-- `Trade` from `src/api/mod.rs`: a public liquidity-consuming trade. -/
structure Trade where
  price : Price
  size : Size
  maker_side : Side
deriving DecidableEq, Repr

/-- `OrderUpdate` from `src/api/mod.rs`: a trade crossed through a tracked
order. -/
structure OrderUpdate where
  order_id : String
  consumed_size : Size
  remaining_size : Size
  consumed_price : Price
  commission : Size
deriving DecidableEq, Repr

/-- `OrderConfirmation` from `src/api/mod.rs`: an exchange "order received"
event in normalized form. -/
structure OrderConfirmation where
  order_id : String
  price : Price
  size : Size
  side : Side
deriving DecidableEq, Repr

/-- `OrderExpiration` from `src/api/mod.rs`: the order is no longer live. -/
structure OrderExpiration where
  order_id : String
deriving DecidableEq, Repr

/-- `Notification` from `src/api/mod.rs`: the tagged union pushed on the
outbound channel. -/
inductive Notification where
  | trade : Timestamped Trade → Notification
  | limitUpdates : List (Timestamped LimitUpdate) → Notification
  | orderConfirmation : Timestamped OrderConfirmation → Notification
  | orderUpdate : Timestamped OrderUpdate → Notification
  | orderExpiration : Timestamped OrderExpiration → Notification
deriving DecidableEq, Repr

/-- Modelled from the spec: `NotificationFlags` (from `api::params`, not in
the provided sources) is a bit set over {ORDER_BOOK, TRADES, ORDERS}
(spec section 3), embedded as a bit mask. -/
abbrev NotificationFlags := Nat

/-- The ORDER_BOOK flag bit. -/
def ORDER_BOOK : NotificationFlags := 1

/-- The TRADES flag bit. -/
def TRADES : NotificationFlags := 2

/-- The ORDERS flag bit. -/
def ORDERS : NotificationFlags := 4

/-- The `bitflags` crate's `contains`: every bit of `need` is set in `f`.
This is the operation `self.flags.contains(..)` used throughout
`parse_message`; note `contains (TRADES ||| ORDERS)` requires BOTH bits. -/
def flagsContain (f need : NotificationFlags) : Bool :=
  f &&& need == need

/-- Modelled from the spec: a tick resolution (`crate::tick`, not in the
provided sources).  `ticked` converts a wire decimal string to an integer
tick count and fails (`ConversionError`) on unparsable input, excess
precision or overflow (spec section 4.1); it is kept abstract here. -/
structure Tick where
  ticked : String → Option Int

/-- `Symbol` (from `api::symbol`, at its interface): instrument name plus the
price and size tick resolutions used by the handler. -/
structure Symbol where
  name : String
  price_tick : Tick
  size_tick : Tick

/-- `SubscriptionState` from `src/api/gdax/wss.rs`. -/
inductive SubscriptionState where
  | NotSubscribed : SubscriptionState
  | Subscribed : SubscriptionState
deriving DecidableEq, Repr

/-- `GdaxBookSnapshot<'a>` from `src/api/gdax/wss.rs`: bid and ask levels as
(price, size) string pairs. -/
structure GdaxBookSnapshot where
  bids : List (String × String)
  asks : List (String × String)

/-- `GdaxLimitUpdate<'a>` from `src/api/gdax/wss.rs`: (side, price, size)
string triples. -/
structure GdaxLimitUpdate where
  changes : List (String × String × String)

/-- `GdaxMatch<'a>` from `src/api/gdax/wss.rs`. -/
structure GdaxMatch where
  time : String
  size : String
  price : String
  side : String
  maker_order_id : String
  taker_order_id : String
  profile_id : Option String
deriving DecidableEq, Repr

/-- `GdaxReceived<'a>` from `src/api/gdax/wss.rs`. -/
structure GdaxReceived where
  time : String
  client_oid : Option String
  order_id : String
  size : String
  price : String
  side : String
deriving DecidableEq, Repr

/-- `GdaxDone<'a>` from `src/api/gdax/wss.rs`. -/
structure GdaxDone where
  reason : String
  order_id : String
  time : String
deriving DecidableEq, Repr

/-- `GdaxError<'a>` from `src/api/gdax/wss.rs`. -/
structure GdaxError where
  message : String
  reason : Option String
deriving DecidableEq, Repr

/-- An inbound frame whose `"type"` envelope (`EventType` in the source)
decoded successfully.  Each `as…` field is the result of re-decoding the same
JSON text against the corresponding schema: `none` models a body that is
malformed for that schema (`serde_json::from_str` fails, a `DecodeError`). -/
structure Frame where
  type_ : String
  asSnapshot : Option GdaxBookSnapshot
  asL2Update : Option GdaxLimitUpdate
  asMatch : Option GdaxMatch
  asReceived : Option GdaxReceived
  asDone : Option GdaxDone
  asError : Option GdaxError

/-- The error kinds that `parse_message` can propagate (spec section 7):
decode failures, timestamp-conversion failures, tick-conversion failures,
the `bail!("wrong side: ..")` of `convert_gdax_side`, and the
`bail!` of the explicit `"error"` frame arm (a `ProtocolError`). -/
inductive WssError where
  | decodeError : WssError
  | timeError : WssError
  | conversionError : WssError
  | badSide : String → WssError
  | protocolError : String → Option String → WssError
deriving DecidableEq, Repr

/-- Association-list embedding of a string-keyed hash map: lookup. -/
def alookup {α : Type} : List (String × α) → String → Option α
  | [], _ => none
  | (k', v) :: t, k => if k' = k then some v else alookup t k

/-- Association-list embedding of a string-keyed hash map: insert, which
overwrites any previous binding of the key (`HashMap::insert` /
`CHashMap::insert` semantics). -/
def ainsert {α : Type} (m : List (String × α)) (k : String) (v : α) :
    List (String × α) :=
  (k, v) :: m.filter (fun p => p.1 != k)

/-- The mutable state of `HandlerImpl` relevant to `parse_message`:
the symbol, the notification flags, the subscription state, the
per-connection order map `orders : server order id => client order`, and the
shared Order-Id Registry `order_ids : client order id => server order id`. -/
structure HandlerState where
  symbol : Symbol
  flags : NotificationFlags
  state : SubscriptionState
  orders : List (String × OrderConfirmation)
  order_ids : List (String × String)

/-- The observable outcome of one `parse_message` call: the state after the
call, the notifications sent on the outbound channel during the call (in
send order), and the error returned, if any.  Sends that happened before a
failure have still been delivered, so they appear in `outs` even when
`err` is `some _`. -/
structure StepResult where
  st : HandlerState
  outs : List Notification
  err : Option WssError

/-- `HandlerImpl::convert_gdax_side`: `"buy"` is `Bid`, `"sell"` is `Ask`,
anything else is the `bail!("wrong side: ..")` error. -/
def convert_gdax_side (side : String) : Option Side :=
  if side = "buy" then some Side.Bid
  else if side = "sell" then some Side.Ask
  else none

/-- `HandlerImpl::convert_gdax_update`: tick the price then the size of one
level; `none` is a `ConversionError`. -/
def convert_gdax_update (sym : Symbol) (l : String × String) (side : Side) :
    Option LimitUpdate :=
  match sym.price_tick.ticked l.1 with
  | none => none
  | some p =>
    match sym.size_tick.ticked l.2 with
    | none => none
    | some s => some { side := side, price := p, size := s }

/-- One row of an `"l2update"` frame: convert the side (`bail!` on a wrong
side string), then the price and the size. -/
def convertChange (sym : Symbol) (c : String × String × String) :
    Except WssError LimitUpdate :=
  match convert_gdax_side c.1 with
  | none => Except.error (WssError.badSide c.1)
  | some sd =>
    match convert_gdax_update sym (c.2.1, c.2.2) sd with
    | none => Except.error WssError.conversionError
    | some l => Except.ok l

/-- The `"snapshot"` arm body: decode has succeeded, convert every bid level
then every ask level; on success emit one `LimitUpdates` batch, each level
timestamped with the local clock `now`. -/
def processSnapshot (now : Nat) (st : HandlerState) (snap : GdaxBookSnapshot) :
    StepResult :=
  match snap.bids.mapM (fun l => convert_gdax_update st.symbol l Side.Bid),
        snap.asks.mapM (fun l => convert_gdax_update st.symbol l Side.Ask) with
  | some bs, some as_ =>
    ⟨st, [Notification.limitUpdates ((bs ++ as_).map (fun l => ⟨now, l⟩))], none⟩
  | _, _ => ⟨st, [], some WssError.conversionError⟩

/-- The `"l2update"` arm body: convert every change row; emit one
`LimitUpdates` batch unless the row list is empty. -/
def processL2 (now : Nat) (st : HandlerState) (u : GdaxLimitUpdate) :
    StepResult :=
  match u.changes.mapM (convertChange st.symbol) with
  | Except.error e => ⟨st, [], some e⟩
  | Except.ok ls =>
    if ls.isEmpty then ⟨st, [], none⟩
    else ⟨st, [Notification.limitUpdates (ls.map (fun l => ⟨now, l⟩))], none⟩

/-- The `update_order` closure of the `"match"` arm applied to one order id
(one leg): if the id is tracked in the per-connection order map, decrement
the tracked size by the matched size and emit one `OrderUpdate` carrying the
tracked order's resolved id and the new remaining size.  Returns the updated
map and the notifications sent by this leg. -/
def applyLeg (sz : Size) (pr : Price) (ts : Nat)
    (orders : List (String × OrderConfirmation)) (k : String) :
    List (String × OrderConfirmation) × List Notification :=
  match alookup orders k with
  | none => (orders, [])
  | some o =>
    (ainsert orders k { o with size := o.size - sz },
     [Notification.orderUpdate ⟨ts,
       { order_id := o.order_id, consumed_size := sz,
         remaining_size := o.size - sz, consumed_price := pr,
         commission := 0 }⟩])

/-- The `"match"` arm body (decode has succeeded): convert timestamp, size
and price; if ORDERS is set and `profile_id` is present, apply the taker leg
then the maker leg; if TRADES is set, convert the side and emit the public
`Trade`. -/
def processMatch (cvtTime : String → Option Nat) (st : HandlerState)
    (m : GdaxMatch) : StepResult :=
  match cvtTime m.time with
  | none => ⟨st, [], some WssError.timeError⟩
  | some ts =>
  match st.symbol.size_tick.ticked m.size with
  | none => ⟨st, [], some WssError.conversionError⟩
  | some sz =>
  match st.symbol.price_tick.ticked m.price with
  | none => ⟨st, [], some WssError.conversionError⟩
  | some pr =>
    let acc :=
      if flagsContain st.flags ORDERS && m.profile_id.isSome then
        let t := applyLeg sz pr ts st.orders m.taker_order_id
        let mk := applyLeg sz pr ts t.1 m.maker_order_id
        (mk.1, t.2 ++ mk.2)
      else (st.orders, [])
    if flagsContain st.flags TRADES then
      match convert_gdax_side m.side with
      | none => ⟨{ st with orders := acc.1 }, acc.2, some (WssError.badSide m.side)⟩
      | some sd =>
        ⟨{ st with orders := acc.1 },
         acc.2 ++ [Notification.trade ⟨ts, { price := pr, size := sz, maker_side := sd }⟩],
         none⟩
    else ⟨{ st with orders := acc.1 }, acc.2, none⟩

/-- The `"received"` arm body (decode has succeeded): convert timestamp, size,
price and side; resolve the order id as `client_oid` when present, else the
exchange `order_id`; write `resolved id -> exchange id` into the shared
Order-Id Registry; record the order in the per-connection order map keyed by
the exchange id; emit one `OrderConfirmation`. -/
def processReceived (cvtTime : String → Option Nat) (st : HandlerState)
    (rc : GdaxReceived) : StepResult :=
  match cvtTime rc.time with
  | none => ⟨st, [], some WssError.timeError⟩
  | some ts =>
  match st.symbol.size_tick.ticked rc.size with
  | none => ⟨st, [], some WssError.conversionError⟩
  | some sz =>
  match st.symbol.price_tick.ticked rc.price with
  | none => ⟨st, [], some WssError.conversionError⟩
  | some pr =>
  match convert_gdax_side rc.side with
  | none => ⟨st, [], some (WssError.badSide rc.side)⟩
  | some sd =>
    let order_id := rc.client_oid.getD rc.order_id
    let order : OrderConfirmation :=
      { order_id := order_id, price := pr, size := sz, side := sd }
    ⟨{ st with
         order_ids := ainsert st.order_ids order_id rc.order_id,
         orders := ainsert st.orders rc.order_id order },
     [Notification.orderConfirmation ⟨ts, order⟩], none⟩

/-- The `"done"` arm body (decode has succeeded): convert the timestamp; a
reason other than `"canceled"` returns success with no output; an order id
absent from the per-connection order map returns success with no output;
otherwise emit one `OrderExpiration` carrying the tracked order's resolved
id. -/
def processDone (cvtTime : String → Option Nat) (st : HandlerState)
    (d : GdaxDone) : StepResult :=
  match cvtTime d.time with
  | none => ⟨st, [], some WssError.timeError⟩
  | some ts =>
  if d.reason = "canceled" then
    match alookup st.orders d.order_id with
    | none => ⟨st, [], none⟩
    | some o =>
      ⟨st, [Notification.orderExpiration ⟨ts, { order_id := o.order_id }⟩], none⟩
  else ⟨st, [], none⟩

/-- `HandlerImpl::parse_message` from `src/api/gdax/wss.rs`, for a frame
whose `"type"` envelope decoded.  The match arms are tried in source order;
a tag whose flag guard is not satisfied falls through to the wildcard arm,
which ignores the frame.  `cvtTime` embeds `convert_str_timestamp` and
`now` the local clock used by `timestamped()`. -/
def parse_message (cvtTime : String → Option Nat) (now : Nat)
    (st : HandlerState) (f : Frame) : StepResult :=
  if f.type_ = "subscribe" then
    -- already-subscribed is only logged; the state is set unconditionally
    ⟨{ st with state := SubscriptionState.Subscribed }, [], none⟩
  else if f.type_ = "snapshot" then
    if flagsContain st.flags ORDER_BOOK then
      match f.asSnapshot with
      | none => ⟨st, [], some WssError.decodeError⟩
      | some snap => processSnapshot now st snap
    else ⟨st, [], none⟩
  else if f.type_ = "l2update" then
    if flagsContain st.flags ORDER_BOOK then
      match f.asL2Update with
      | none => ⟨st, [], some WssError.decodeError⟩
      | some u => processL2 now st u
    else ⟨st, [], none⟩
  else if f.type_ = "match" then
    if flagsContain st.flags (TRADES ||| ORDERS) then
      match f.asMatch with
      | none => ⟨st, [], some WssError.decodeError⟩
      | some m => processMatch cvtTime st m
    else ⟨st, [], none⟩
  else if f.type_ = "received" then
    if flagsContain st.flags ORDERS then
      match f.asReceived with
      | none => ⟨st, [], some WssError.decodeError⟩
      | some rc => processReceived cvtTime st rc
    else ⟨st, [], none⟩
  else if f.type_ = "done" then
    if flagsContain st.flags ORDERS then
      match f.asDone with
      | none => ⟨st, [], some WssError.decodeError⟩
      | some d => processDone cvtTime st d
    else ⟨st, [], none⟩
  else if f.type_ = "error" then
    match f.asError with
    | none => ⟨st, [], some WssError.decodeError⟩
    | some e => ⟨st, [], some (WssError.protocolError e.message e.reason)⟩
  else ⟨st, [], none⟩

/-- The receive loop restricted to already-decoded envelopes: process frames
in order, accumulating the sent notifications, and stop at the first
connection-fatal error (the error tears the connection down; notifications
sent before it have been delivered). -/
def runMessages (cvtTime : String → Option Nat) (now : Nat) :
    HandlerState → List Frame → HandlerState × List Notification
  | st, [] => (st, [])
  | st, f :: fs =>
    let r := parse_message cvtTime now st f
    match r.err with
    | some _ => (r.st, r.outs)
    | none =>
      let rest := runMessages cvtTime now r.st fs
      (rest.1, r.outs ++ rest.2)

/-- `Client::new_order_id` of the HitBTC client
(`src/src/api/hitbtc/mod.rs`): the hint is returned unchanged. -/
def hitbtc_new_order_id (hint : String) : String :=
  hint

/-! ### Observation helpers over emitted notifications -/

/-- The `OrderUpdate` payload of a notification, when it is one. -/
def notifOrderUpdate : Notification → Option OrderUpdate
  | Notification.trade _ => none
  | Notification.limitUpdates _ => none
  | Notification.orderConfirmation _ => none
  | Notification.orderUpdate u => some u.inner
  | Notification.orderExpiration _ => none

/-- The `OrderUpdate` payloads emitted for the order with resolved id `id`,
in emission order. -/
def updatesFor (id : String) (l : List Notification) : List OrderUpdate :=
  (l.filterMap notifOrderUpdate).filter (fun u => u.order_id == id)

/-- Total consumed size over a list of order updates. -/
def consumedTotal (us : List OrderUpdate) : Int :=
  (us.map (fun u => u.consumed_size)).sum

/-- Each update's `remaining_size` equals the initial size minus the running
sum of `consumed_size` up to and including that update. -/
def runningOk (init : Int) : List OrderUpdate → Prop
  | [] => True
  | u :: t =>
    u.remaining_size = init - u.consumed_size ∧
    runningOk (init - u.consumed_size) t

/-- Whether an optional handler error is the explicit-error-frame
`ProtocolError`. -/
def isProtocolError : Option WssError → Bool
  | some (WssError.protocolError _ _) => true
  | _ => false

/-- A frame that the dispatch table ignores: an unknown type tag, or a known
tag whose `NotificationFlags` guard is not satisfied. -/
def guardMiss (f : Frame) (flags : NotificationFlags) : Prop :=
  f.type_ ∉ ["subscribe", "snapshot", "l2update", "match", "received", "done", "error"] ∨
  (f.type_ = "snapshot" ∧ flagsContain flags ORDER_BOOK = false) ∨
  (f.type_ = "l2update" ∧ flagsContain flags ORDER_BOOK = false) ∨
  (f.type_ = "match" ∧ flagsContain flags (TRADES ||| ORDERS) = false) ∨
  (f.type_ = "received" ∧ flagsContain flags ORDERS = false) ∨
  (f.type_ = "done" ∧ flagsContain flags ORDERS = false)

/-! ### Concrete fixtures used by witnesses and counterexamples

A price tick of 0.01 and a size tick of 0.1, as finite decimal tables
(the tick module is abstract, see `Tick`). -/

/-- A concrete price tick: resolution 0.01. -/
def tickP : Tick :=
  ⟨fun s =>
    if s = "50.00" then some 5000
    else if s = "100.00" then some 10000
    else if s = "101.00" then some 10100
    else none⟩

/-- A concrete size tick: resolution 0.1. -/
def tickS : Tick :=
  ⟨fun s =>
    if s = "1.0" then some 10
    else if s = "0.4" then some 4
    else if s = "3.0" then some 30
    else if s = "2" then some 20
    else if s = "3" then some 30
    else none⟩

/-- A concrete symbol with the ticks above. -/
def sym0 : Symbol := ⟨"BTC-USD", tickP, tickS⟩

/-- A concrete timestamp conversion: only `"T"` is a valid wire time. -/
def cvt0 : String → Option Nat :=
  fun s => if s = "T" then some 42 else none

/-- A tracked order: resolved id `"abc"`, price 50.00, size 1.0 (scenario 2). -/
def ordAbc : OrderConfirmation := ⟨"abc", 5000, 10, Side.Bid⟩

/-- A second tracked order with resolved id `"xyz"` and size 0.7. -/
def ordXyz : OrderConfirmation := ⟨"xyz", 5000, 7, Side.Ask⟩

/-- A frame with only a type tag (every schema decode fails). -/
def tagOnly (tag : String) : Frame := ⟨tag, none, none, none, none, none, none⟩

/-- A well-formed match frame wrapped as a frame. -/
def matchFrame (m : GdaxMatch) : Frame := ⟨"match", none, none, some m, none, none, none⟩

/-- C1 fixture: a stream with only the TRADES flag set. -/
def st1 : HandlerState := ⟨sym0, TRADES, SubscriptionState.Subscribed, [], []⟩

/-- C1 fixture: a well-formed public match frame. -/
def m1 : GdaxMatch := ⟨"T", "0.4", "50.00", "sell", "mkr", "tkr", none⟩

/-- C2/C3 fixture: TRADES and ORDERS set, order `"srv1" => ordAbc` tracked. -/
def st2 : HandlerState :=
  ⟨sym0, TRADES ||| ORDERS, SubscriptionState.Subscribed, [("srv1", ordAbc)], []⟩

/-- C2 witness fixture: a match consuming 0.4 of tracked taker `"srv1"`. -/
def m2w : GdaxMatch := ⟨"T", "0.4", "50.00", "sell", "other", "srv1", some "me"⟩

/-- C2 counterexample fixture: a match consuming 3.0 > the tracked size 1.0. -/
def m2c : GdaxMatch := ⟨"T", "3.0", "50.00", "sell", "other", "srv1", some "me"⟩

/-- C3 fixture: two tracked orders, both legs of the same match. -/
def st3 : HandlerState :=
  ⟨sym0, TRADES ||| ORDERS, SubscriptionState.Subscribed,
   [("srv1", ordAbc), ("srv2", ordXyz)], []⟩

/-- C3 fixture: a self-trade match, taker `"srv1"`, maker `"srv2"`. -/
def m3 : GdaxMatch := ⟨"T", "0.4", "50.00", "buy", "srv2", "srv1", some "me"⟩

/-- C4 fixture: ORDERS set, nothing tracked yet. -/
def st4 : HandlerState := ⟨sym0, ORDERS, SubscriptionState.Subscribed, [], []⟩

/-- C4 fixture: scenario 2's "received" frame. -/
def rc4 : GdaxReceived := ⟨"T", some "abc", "srv1", "1.0", "50.00", "buy"⟩

/-- C4 fixture: the frame carrying `rc4`. -/
def frame4 : Frame := ⟨"received", none, none, none, some rc4, none, none⟩

/-- C5 fixture: an already-subscribed connection. -/
def st5 : HandlerState := ⟨sym0, 0, SubscriptionState.Subscribed, [], []⟩

/-- C6 fixture: ORDERS set, order `"srv1"` tracked. -/
def st6 : HandlerState := ⟨sym0, ORDERS, SubscriptionState.Subscribed, [("srv1", ordAbc)], []⟩

/-- C6 fixture: a "done" frame for an order id never seen in "received". -/
def frame6 : Frame := ⟨"done", none, none, none, none, some ⟨"canceled", "ghost", "T"⟩, none⟩

/-- C7 fixture: an error frame whose body decodes to the error schema. -/
def frame7 : Frame := ⟨"error", none, none, none, none, none, some ⟨"oops", some "bad"⟩⟩

/-- C7 counterexample fixture: an error-tagged frame whose body is malformed
for the error schema (e.g. the `message` field is missing). -/
def frame7bad : Frame := tagOnly "error"

/-- C10 fixture: ORDER_BOOK and TRADES set but not ORDERS. -/
def st10 : HandlerState :=
  ⟨sym0, ORDER_BOOK ||| TRADES, SubscriptionState.Subscribed, [("srv1", ordAbc)], [("abc", "srv1")]⟩

/-! ### Association-map lemmas -/

theorem alookup_filter_ne {α : Type} (m : List (String × α)) (k k' : String)
    (h : k' ≠ k) :
    alookup (m.filter (fun p => p.1 != k)) k' = alookup m k' := by
  induction m with
  | nil => rfl
  | cons a t ih =>
    by_cases ha : a.1 = k
    · have hk : ¬ k = k' := fun hh => h hh.symm
      simp [List.filter_cons, ha, alookup, hk, ih]
    · simp [List.filter_cons, ha, alookup, ih]

theorem alookup_ainsert_self {α : Type} (m : List (String × α)) (k : String) (v : α) :
    alookup (ainsert m k v) k = some v := by
  simp [ainsert, alookup]

theorem alookup_ainsert_ne {α : Type} (m : List (String × α)) (k : String) (v : α)
    (k' : String) (h : k' ≠ k) :
    alookup (ainsert m k v) k' = alookup m k' := by
  have hk : k ≠ k' := fun hh => h hh.symm
  simp only [ainsert, alookup, if_neg hk]
  exact alookup_filter_ne m k k' h

/-! ### C9 -/

/-- C9: the HitBTC client's static `new_order_id` returns the hint unchanged
for every hint string, satisfying the first disjunct of the `ApiClient`
contract (hint returned verbatim). -/
theorem c9_new_order_id_returns_hint (hint : String) :
    hitbtc_new_order_id hint = hint := rfl

/-! ### C8 -/

/-- C8: inserting the same `(client_id, exchange_id)` pair into the Order-Id
Registry twice — i.e. from two independent callers, in either order, since
the two interleavings are the same operation sequence — leaves the registry
in the same observable state as inserting it once: `ainsert` of an identical
pair is idempotent, and the inserted mapping is observable afterwards. -/
theorem c8_registry_insert_idempotent (m : List (String × String))
    (k v : String) :
    ainsert (ainsert m k v) k v = ainsert m k v ∧
    alookup (ainsert m k v) k = some v := by
  constructor
  · simp only [ainsert, List.filter_cons, bne_self_eq_false, if_neg]
    induction m with
    | nil => simp
    | cons a t ih =>
      by_cases ha : a.1 = k <;> simp_all [List.filter_cons]
  · exact alookup_ainsert_self m k v

/-! ### C1 -/

/-- C1: refuted on the code — the `"match"` arm's guard is
`flags.contains(TRADES | ORDERS)`, which under the `bitflags` contract
requires BOTH bits.  A well-formed public match frame arriving on a stream
subscribed with only TRADES set falls through to the wildcard arm: the
handler returns success, emits no `Trade`, and touches no state, diverging
from the claimed "TRADES or ORDERS" dispatch. -/
theorem c1_match_frame_dropped_with_only_trades :
    parse_message cvt0 0 st1 (matchFrame m1) = ⟨st1, [], none⟩ := rfl

/-! ### C5 helper lemmas: no arm except `"subscribe"` touches the
subscription state. -/

theorem processSnapshot_state (now : Nat) (st : HandlerState)
    (snap : GdaxBookSnapshot) :
    (processSnapshot now st snap).st.state = st.state := by
  unfold processSnapshot
  split <;> rfl

theorem processL2_state (now : Nat) (st : HandlerState) (u : GdaxLimitUpdate) :
    (processL2 now st u).st.state = st.state := by
  unfold processL2
  (repeat' split) <;> rfl

theorem processMatch_state (cvt : String → Option Nat) (st : HandlerState)
    (m : GdaxMatch) :
    (processMatch cvt st m).st.state = st.state := by
  simp only [processMatch]
  (repeat' split) <;> rfl

theorem processReceived_state (cvt : String → Option Nat) (st : HandlerState)
    (rc : GdaxReceived) :
    (processReceived cvt st rc).st.state = st.state := by
  simp only [processReceived]
  (repeat' split) <;> rfl

theorem processDone_state (cvt : String → Option Nat) (st : HandlerState)
    (d : GdaxDone) :
    (processDone cvt st d).st.state = st.state := by
  simp only [processDone]
  (repeat' split) <;> rfl

theorem parse_message_state_of_ne (cvt : String → Option Nat) (now : Nat)
    (st : HandlerState) (f : Frame) (h : ¬ f.type_ = "subscribe") :
    (parse_message cvt now st f).st.state = st.state := by
  unfold parse_message
  rw [if_neg h]
  (repeat' split) <;>
    simp [processSnapshot_state, processL2_state, processMatch_state,
      processReceived_state, processDone_state]

/-! ### C5 -/

/-- C5: the subscription state is one-way: from `Subscribed` it never returns
to `NotSubscribed` under any inbound frame; and a second subscribe
acknowledgment while already `Subscribed` leaves the state unchanged, returns
success, and emits no notification. -/
theorem c5_subscription_state_one_way (cvt : String → Option Nat) (now : Nat)
    (st : HandlerState) (f : Frame) :
    (st.state = SubscriptionState.Subscribed →
      (parse_message cvt now st f).st.state = SubscriptionState.Subscribed) ∧
    (f.type_ = "subscribe" → st.state = SubscriptionState.Subscribed →
      (parse_message cvt now st f).st = st ∧
      (parse_message cvt now st f).outs = [] ∧
      (parse_message cvt now st f).err = none) := by
  constructor
  · intro hst
    by_cases hf : f.type_ = "subscribe"
    · simp [parse_message, hf]
    · rw [parse_message_state_of_ne cvt now st f hf, hst]
  · intro hf hst
    cases st with
    | mk sym fl s os ids =>
      cases hst
      simp [parse_message, hf]

/-- C5 witness: a second subscribe acknowledgment on a concretely subscribed
connection keeps the state `Subscribed`, succeeds, and emits nothing. -/
theorem c5_witness :
    (parse_message cvt0 0 st5 (tagOnly "subscribe")).st = st5 ∧
    (parse_message cvt0 0 st5 (tagOnly "subscribe")).outs = [] ∧
    (parse_message cvt0 0 st5 (tagOnly "subscribe")).err = none :=
  (c5_subscription_state_one_way cvt0 0 st5 (tagOnly "subscribe")).2 rfl rfl

/-! ### C10 -/

/-- C10: a frame with an unknown type tag, or with a known tag whose
`NotificationFlags` guard is unsatisfied, is ignored: `parse_message`
returns success, emits nothing, and leaves the whole handler state
(subscription state, order map, Order-Id Registry) unchanged — regardless
of the frame's payload, malformed or not. -/
theorem c10_guard_missed_frames_ignored (cvt : String → Option Nat) (now : Nat)
    (st : HandlerState) (f : Frame) (h : guardMiss f st.flags) :
    parse_message cvt now st f = ⟨st, [], none⟩ := by
  unfold guardMiss at h
  rcases h with h | ⟨ht, hg⟩ | ⟨ht, hg⟩ | ⟨ht, hg⟩ | ⟨ht, hg⟩ | ⟨ht, hg⟩
  · simp only [List.mem_cons, List.not_mem_nil, or_false, not_or] at h
    obtain ⟨h1, h2, h3, h4, h5, h6, h7⟩ := h
    simp [parse_message, h1, h2, h3, h4, h5, h6, h7]
  all_goals simp [parse_message, ht, hg]

/-- C10 witness: a `"received"` frame with a malformed body arriving without
the ORDERS flag is ignored without decoding the body. -/
theorem c10_witness :
    guardMiss (tagOnly "received") st10.flags ∧
    parse_message cvt0 0 st10 (tagOnly "received") = ⟨st10, [], none⟩ :=
  have h : guardMiss (tagOnly "received") st10.flags := by
    right; right; right; right; left; exact ⟨rfl, rfl⟩
  ⟨h, c10_guard_missed_frames_ignored cvt0 0 st10 (tagOnly "received") h⟩

/-! ### C7 -/

/-- C7 counterexample: an `"error"`-tagged frame whose body is malformed for
the error schema (no `message` field) terminates processing with a
`DecodeError` from the schema re-decode, not with a `ProtocolError` — the
claim's "regardless of the frame's remaining shape … a ProtocolError" fails
at this input. -/
theorem c7_counterexample_decode_error_not_protocol :
    (parse_message cvt0 0 st5 frame7bad).err = some WssError.decodeError ∧
    isProtocolError (parse_message cvt0 0 st5 frame7bad).err = false :=
  ⟨rfl, rfl⟩

/-- C7 (amended): every `"error"`-tagged frame, regardless of the flags and
of its remaining shape, terminates processing with a connection-fatal error
and emits no notification and changes no state; the error is the
`ProtocolError` carrying the frame's message whenever the body decodes to
the error schema (and a `DecodeError` otherwise). -/
theorem c7_error_frame_fatal (cvt : String → Option Nat) (now : Nat)
    (st : HandlerState) (f : Frame) (h : f.type_ = "error") :
    (parse_message cvt now st f).outs = [] ∧
    (parse_message cvt now st f).st = st ∧
    (parse_message cvt now st f).err.isSome = true ∧
    (∀ e, f.asError = some e →
      (parse_message cvt now st f).err =
        some (WssError.protocolError e.message e.reason)) := by
  cases he : f.asError with
  | none => simp [parse_message, h, he]
  | some e => simp [parse_message, h, he]

/-- C7 witness: a decodable error frame `{message:"oops", reason:"bad"}`
terminates processing with exactly that `ProtocolError` and no output. -/
theorem c7_witness :
    (parse_message cvt0 0 st5 frame7).outs = [] ∧
    (parse_message cvt0 0 st5 frame7).st = st5 ∧
    (parse_message cvt0 0 st5 frame7).err =
      some (WssError.protocolError "oops" (some "bad")) :=
  have h := c7_error_frame_fatal cvt0 0 st5 frame7 rfl
  ⟨h.1, h.2.1, h.2.2.2 ⟨"oops", some "bad"⟩ rfl⟩

/-! ### C6 -/

/-- C6: a well-formed `"done"` frame processed with ORDERS set emits nothing
and succeeds when its reason is not `"canceled"` or when its order id is not
tracked in the per-connection order map; otherwise it emits exactly one
`OrderExpiration` carrying the tracked order's resolved (client-side) id. -/
theorem c6_done_dispatch (cvt : String → Option Nat) (now ts : Nat)
    (st : HandlerState) (f : Frame) (d : GdaxDone)
    (htag : f.type_ = "done") (hfl : flagsContain st.flags ORDERS = true)
    (hd : f.asDone = some d) (ht : cvt d.time = some ts) :
    (¬ d.reason = "canceled" → parse_message cvt now st f = ⟨st, [], none⟩) ∧
    (alookup st.orders d.order_id = none →
      parse_message cvt now st f = ⟨st, [], none⟩) ∧
    (∀ o, d.reason = "canceled" → alookup st.orders d.order_id = some o →
      parse_message cvt now st f =
        ⟨st, [Notification.orderExpiration ⟨ts, ⟨o.order_id⟩⟩], none⟩) := by
  have hpm : parse_message cvt now st f = processDone cvt st d := by
    simp [parse_message, htag, hfl, hd]
  refine ⟨fun hr => ?_, fun ho => ?_, fun o hr ho => ?_⟩
  · simp [hpm, processDone, ht, hr]
  · by_cases hr : d.reason = "canceled" <;> simp [hpm, processDone, ht, hr, ho]
  · simp [hpm, processDone, ht, hr, ho]

/-- C6 witness: scenario 4 — a `"done"` frame whose order id was never seen
in a `"received"` frame produces no notification and succeeds. -/
theorem c6_witness :
    parse_message cvt0 0 st6 frame6 = ⟨st6, [], none⟩ :=
  (c6_done_dispatch cvt0 0 42 st6 frame6 ⟨"canceled", "ghost", "T"⟩
    rfl rfl rfl rfl).2.1 rfl

/-! ### C4 -/

/-- C4: a well-formed `"received"` frame processed with ORDERS set resolves
the order id as the caller-supplied `client_oid` when present (else the
exchange `order_id`), eagerly writes `resolved id -> exchange id` into the
shared Order-Id Registry, records the order in the per-connection order map
keyed by the exchange id, and emits exactly one `OrderConfirmation` with the
resolved id, ticked price, ticked size and converted side. -/
theorem c4_received_frame (cvt : String → Option Nat) (now ts : Nat)
    (st : HandlerState) (f : Frame) (rc : GdaxReceived) (sz pr : Int) (sd : Side)
    (htag : f.type_ = "received") (hfl : flagsContain st.flags ORDERS = true)
    (hrc : f.asReceived = some rc) (ht : cvt rc.time = some ts)
    (hsz : st.symbol.size_tick.ticked rc.size = some sz)
    (hpr : st.symbol.price_tick.ticked rc.price = some pr)
    (hsd : convert_gdax_side rc.side = some sd) :
    parse_message cvt now st f =
      ⟨{ st with
           order_ids := ainsert st.order_ids (rc.client_oid.getD rc.order_id) rc.order_id,
           orders := ainsert st.orders rc.order_id
             ⟨rc.client_oid.getD rc.order_id, pr, sz, sd⟩ },
       [Notification.orderConfirmation ⟨ts, ⟨rc.client_oid.getD rc.order_id, pr, sz, sd⟩⟩],
       none⟩ := by
  simp [parse_message, htag, hfl, hrc, processReceived, ht, hsz, hpr, hsd]

/-- C4 witness: scenario 2 — `client_oid:"abc"`, `order_id:"srv1"`,
`size:"1.0"`, `price:"50.00"`, `side:"buy"` with ORDERS set yields the
registry mapping `abc -> srv1`, the tracked order under key `"srv1"`, and one
`OrderConfirmation{order_id:"abc", price:5000, size:10, side:Bid}`. -/
theorem c4_witness :
    parse_message cvt0 0 st4 frame4 =
      ⟨{ st4 with
           order_ids := ainsert [] "abc" "srv1",
           orders := ainsert [] "srv1" ⟨"abc", 5000, 10, Side.Bid⟩ },
       [Notification.orderConfirmation ⟨42, ⟨"abc", 5000, 10, Side.Bid⟩⟩],
       none⟩ :=
  c4_received_frame cvt0 0 42 st4 frame4 rc4 10 5000 Side.Bid
    rfl rfl rfl rfl rfl rfl rfl

/-! ### C3 -/

/-- C3: a match frame processed with ORDERS set and a present `profile_id`
resolves the taker and maker order ids independently against the
per-connection order map; when both are tracked (under distinct exchange
ids, a self-trade), both legs are handled: exactly one `OrderUpdate` per
matched leg is emitted (taker first), each decrementing its own tracked
remaining size by the matched size. -/
theorem c3_self_trade_both_legs (cvt : String → Option Nat) (now ts : Nat)
    (st : HandlerState) (f : Frame) (m : GdaxMatch) (sz pr : Int) (sd : Side)
    (ot om : OrderConfirmation)
    (htag : f.type_ = "match")
    (hguard : flagsContain st.flags (TRADES ||| ORDERS) = true)
    (hord : flagsContain st.flags ORDERS = true)
    (htr : flagsContain st.flags TRADES = true)
    (hm : f.asMatch = some m) (hprof : m.profile_id.isSome = true)
    (ht : cvt m.time = some ts)
    (hsz : st.symbol.size_tick.ticked m.size = some sz)
    (hpr : st.symbol.price_tick.ticked m.price = some pr)
    (hsd : convert_gdax_side m.side = some sd)
    (hne : ¬ m.maker_order_id = m.taker_order_id)
    (htk : alookup st.orders m.taker_order_id = some ot)
    (hmk : alookup st.orders m.maker_order_id = some om) :
    parse_message cvt now st f =
      ⟨{ st with orders :=
           (ainsert (ainsert st.orders m.taker_order_id { ot with size := ot.size - sz })
             m.maker_order_id { om with size := om.size - sz }) },
       [Notification.orderUpdate ⟨ts, ⟨ot.order_id, sz, ot.size - sz, pr, 0⟩⟩,
        Notification.orderUpdate ⟨ts, ⟨om.order_id, sz, om.size - sz, pr, 0⟩⟩,
        Notification.trade ⟨ts, ⟨pr, sz, sd⟩⟩],
       none⟩ := by
  have hmk' :
      alookup (ainsert st.orders m.taker_order_id { ot with size := ot.size - sz })
        m.maker_order_id = some om := by
    rw [alookup_ainsert_ne _ _ _ _ hne]
    exact hmk
  simp [parse_message, htag, hguard, hm, processMatch, ht, hsz, hpr, hord, hprof,
    applyLeg, htk, hmk', htr, hsd]

/-- C3 witness: a self-trade match with taker `"srv1"` and maker `"srv2"`
both tracked emits one `OrderUpdate` per leg — `abc` goes from 10 to 6 and
`xyz` from 7 to 3 ticks — plus the public `Trade`. -/
theorem c3_witness :
    parse_message cvt0 0 st3 (matchFrame m3) =
      ⟨{ st3 with orders :=
           (ainsert (ainsert st3.orders "srv1" ⟨"abc", 5000, 6, Side.Bid⟩)
             "srv2" ⟨"xyz", 5000, 3, Side.Ask⟩) },
       [Notification.orderUpdate ⟨42, ⟨"abc", 4, 6, 5000, 0⟩⟩,
        Notification.orderUpdate ⟨42, ⟨"xyz", 4, 3, 5000, 0⟩⟩,
        Notification.trade ⟨42, ⟨5000, 4, Side.Bid⟩⟩],
       none⟩ :=
  c3_self_trade_both_legs cvt0 0 42 st3 (matchFrame m3) m3 4 5000 Side.Bid
    ordAbc ordXyz rfl rfl rfl rfl rfl rfl rfl rfl rfl rfl
    (by decide) rfl rfl

/-! ### C2 helper lemmas -/

theorem updatesFor_append (id : String) (l1 l2 : List Notification) :
    updatesFor id (l1 ++ l2) = updatesFor id l1 ++ updatesFor id l2 := by
  simp [updatesFor, List.filterMap_append, List.filter_append]

theorem updatesFor_nil (id : String) : updatesFor id [] = [] := rfl

theorem consumedTotal_nil : consumedTotal [] = 0 := rfl

theorem consumedTotal_append (l1 l2 : List OrderUpdate) :
    consumedTotal (l1 ++ l2) = consumedTotal l1 + consumedTotal l2 := by
  simp [consumedTotal]

theorem runningOk_nil (a : Int) : runningOk a [] := trivial

theorem runningOk_append (l1 l2 : List OrderUpdate) (a : Int)
    (h1 : runningOk a l1) (h2 : runningOk (a - consumedTotal l1) l2) :
    runningOk a (l1 ++ l2) := by
  induction l1 generalizing a with
  | nil => simpa [consumedTotal] using h2
  | cons u t ih =>
    obtain ⟨hu, ht⟩ := h1
    refine ⟨hu, ih (a - u.consumed_size) ht ?_⟩
    have he : a - consumedTotal (u :: t) = a - u.consumed_size - consumedTotal t := by
      simp [consumedTotal]
      omega
    rwa [he] at h2

/-- One leg of the `"match"` arm preserves every tracked order's resolved id
(pointwise on the map). -/
theorem applyLeg_ids (sz pr : Int) (ts : Nat)
    (os : List (String × OrderConfirmation)) (k k' : String) :
    (alookup (applyLeg sz pr ts os k).1 k').map (fun o => o.order_id) =
      (alookup os k').map (fun o => o.order_id) := by
  cases h : alookup os k with
  | none => simp [applyLeg, h]
  | some o =>
    by_cases hk : k' = k
    · subst hk
      simp [applyLeg, h, alookup_ainsert_self]
    · simp [applyLeg, h, alookup_ainsert_ne _ _ _ _ hk]

/-- Pointwise preservation of resolved ids preserves the uniqueness of the
resolved id `id0` at key `oid`. -/
theorem uniq_of_ids (os os' : List (String × OrderConfirmation))
    (oid id0 : String)
    (hids : ∀ k', (alookup os' k').map (fun o => o.order_id) =
      (alookup os k').map (fun o => o.order_id))
    (huq : ∀ k' o, alookup os k' = some o → o.order_id = id0 → k' = oid) :
    ∀ k' o, alookup os' k' = some o → o.order_id = id0 → k' = oid := by
  intro k' o h hio
  have hk := hids k'
  rw [h] at hk
  cases h2 : alookup os k' with
  | none => rw [h2] at hk; simp at hk
  | some o2 =>
    rw [h2] at hk
    simp only [Option.map] at hk
    have ho : o.order_id = o2.order_id := Option.some.inj hk
    exact huq k' o2 h2 (by rw [← ho]; exact hio)

/-- One leg of the `"match"` arm: the tracked order at key `oid` (whose
resolved id `id0` no other tracked order carries) ends with its size
decremented by exactly the total consumed size of the `OrderUpdate`s this
leg emitted for it, and those updates satisfy the running-sum property. -/
theorem applyLeg_spec (sz pr : Int) (ts : Nat)
    (os : List (String × OrderConfirmation)) (k oid id0 : String)
    (ord : OrderConfirmation)
    (hord : alookup os oid = some ord) (hid : ord.order_id = id0)
    (huq : ∀ k' o, alookup os k' = some o → o.order_id = id0 → k' = oid) :
    ∃ ord', alookup (applyLeg sz pr ts os k).1 oid = some ord' ∧
      ord'.order_id = id0 ∧
      ord'.size = ord.size - consumedTotal (updatesFor id0 (applyLeg sz pr ts os k).2) ∧
      runningOk ord.size (updatesFor id0 (applyLeg sz pr ts os k).2) := by
  cases h : alookup os k with
  | none =>
    refine ⟨ord, by simp [applyLeg, h, hord], hid, ?_, ?_⟩
    · simp [applyLeg, h, updatesFor, consumedTotal]
    · simp [applyLeg, h, updatesFor, runningOk]
  | some o =>
    by_cases hk : k = oid
    · subst hk
      rw [hord] at h
      obtain rfl := Option.some.inj h
      refine ⟨{ ord with size := ord.size - sz }, ?_, hid, ?_, ?_⟩
      · simp [applyLeg, hord, alookup_ainsert_self]
      · simp [applyLeg, hord, updatesFor, notifOrderUpdate, hid, consumedTotal]
      · simp [applyLeg, hord, updatesFor, notifOrderUpdate, hid, runningOk]
    · have ho : ¬ o.order_id = id0 := fun hh => hk (huq k o h hh)
      refine ⟨ord, ?_, hid, ?_, ?_⟩
      · rw [show (applyLeg sz pr ts os k).1 = ainsert os k { o with size := o.size - sz } by
          simp [applyLeg, h]]
        rw [alookup_ainsert_ne _ _ _ _ (fun hh => hk hh.symm)]
        exact hord
      · simp [applyLeg, h, updatesFor, notifOrderUpdate, ho, consumedTotal]
      · simp [applyLeg, h, updatesFor, notifOrderUpdate, ho, runningOk]

/-- Both legs of the `"match"` arm in sequence (taker then maker), with the
emitted notifications concatenated in send order. -/
theorem twoLegs_spec (sz pr : Int) (ts : Nat)
    (os : List (String × OrderConfirmation)) (k1 k2 oid id0 : String)
    (ord : OrderConfirmation)
    (hord : alookup os oid = some ord) (hid : ord.order_id = id0)
    (huq : ∀ k' o, alookup os k' = some o → o.order_id = id0 → k' = oid) :
    ∃ ord',
      alookup (applyLeg sz pr ts (applyLeg sz pr ts os k1).1 k2).1 oid = some ord' ∧
      ord'.order_id = id0 ∧
      ord'.size = ord.size - consumedTotal (updatesFor id0
        ((applyLeg sz pr ts os k1).2 ++ (applyLeg sz pr ts (applyLeg sz pr ts os k1).1 k2).2)) ∧
      runningOk ord.size (updatesFor id0
        ((applyLeg sz pr ts os k1).2 ++ (applyLeg sz pr ts (applyLeg sz pr ts os k1).1 k2).2)) ∧
      (∀ k', (alookup (applyLeg sz pr ts (applyLeg sz pr ts os k1).1 k2).1 k').map (fun o => o.order_id) =
        (alookup os k').map (fun o => o.order_id)) := by
  obtain ⟨o1, ho1, hi1, hs1, hr1⟩ := applyLeg_spec sz pr ts os k1 oid id0 ord hord hid huq
  have ids1 : ∀ k', (alookup (applyLeg sz pr ts os k1).1 k').map (fun o => o.order_id) =
      (alookup os k').map (fun o => o.order_id) :=
    fun k' => applyLeg_ids sz pr ts os k1 k'
  have huq1 := uniq_of_ids os (applyLeg sz pr ts os k1).1 oid id0 ids1 huq
  obtain ⟨o2, ho2, hi2, hs2, hr2⟩ :=
    applyLeg_spec sz pr ts (applyLeg sz pr ts os k1).1 k2 oid id0 o1 ho1 hi1 huq1
  have ids2 : ∀ k', (alookup (applyLeg sz pr ts (applyLeg sz pr ts os k1).1 k2).1 k').map (fun o => o.order_id) =
      (alookup (applyLeg sz pr ts os k1).1 k').map (fun o => o.order_id) :=
    fun k' => applyLeg_ids sz pr ts (applyLeg sz pr ts os k1).1 k2 k'
  refine ⟨o2, ho2, hi2, ?_, ?_, fun k' => (ids2 k').trans (ids1 k')⟩
  · rw [updatesFor_append, consumedTotal_append, hs2, hs1]
    ring
  · rw [updatesFor_append]
    refine runningOk_append _ _ _ hr1 ?_
    rw [hs1] at hr2
    exact hr2

/-- The whole `"match"` arm body preserves the tracked order at `oid`
(with unique resolved id `id0`): its tracked size drops by exactly the total
consumed size of the `OrderUpdate`s emitted for it, those updates satisfy the
running-sum property against its incoming size, and every tracked order's
resolved id is preserved. -/
theorem processMatch_spec (cvt : String → Option Nat) (st : HandlerState)
    (m : GdaxMatch) (oid id0 : String) (ord : OrderConfirmation)
    (hord : alookup st.orders oid = some ord) (hid : ord.order_id = id0)
    (huq : ∀ k' o, alookup st.orders k' = some o → o.order_id = id0 → k' = oid) :
    ∃ ord', alookup (processMatch cvt st m).st.orders oid = some ord' ∧
      ord'.order_id = id0 ∧
      ord'.size = ord.size - consumedTotal (updatesFor id0 (processMatch cvt st m).outs) ∧
      runningOk ord.size (updatesFor id0 (processMatch cvt st m).outs) ∧
      (∀ k', (alookup (processMatch cvt st m).st.orders k').map (fun o => o.order_id) =
        (alookup st.orders k').map (fun o => o.order_id)) := by
  cases h1 : cvt m.time with
  | none =>
    have hres : processMatch cvt st m = ⟨st, [], some WssError.timeError⟩ := by
      simp [processMatch, h1]
    rw [hres]
    exact ⟨ord, hord, hid, by simp [updatesFor, consumedTotal],
      by simp [updatesFor, runningOk], fun k' => rfl⟩
  | some ts =>
  cases h2 : st.symbol.size_tick.ticked m.size with
  | none =>
    have hres : processMatch cvt st m = ⟨st, [], some WssError.conversionError⟩ := by
      simp [processMatch, h1, h2]
    rw [hres]
    exact ⟨ord, hord, hid, by simp [updatesFor, consumedTotal],
      by simp [updatesFor, runningOk], fun k' => rfl⟩
  | some sz =>
  cases h3 : st.symbol.price_tick.ticked m.price with
  | none =>
    have hres : processMatch cvt st m = ⟨st, [], some WssError.conversionError⟩ := by
      simp [processMatch, h1, h2, h3]
    rw [hres]
    exact ⟨ord, hord, hid, by simp [updatesFor, consumedTotal],
      by simp [updatesFor, runningOk], fun k' => rfl⟩
  | some pr =>
  by_cases hg : (flagsContain st.flags ORDERS && m.profile_id.isSome) = true
  · obtain ⟨o2, ho2, hi2, hs2, hr2, ids2⟩ :=
      twoLegs_spec sz pr ts st.orders m.taker_order_id m.maker_order_id oid id0
        ord hord hid huq
    by_cases htr : flagsContain st.flags TRADES = true
    · cases hsd : convert_gdax_side m.side with
      | none =>
        have hres : processMatch cvt st m =
            ⟨{ st with orders :=
                 (applyLeg sz pr ts (applyLeg sz pr ts st.orders m.taker_order_id).1
                   m.maker_order_id).1 },
             (applyLeg sz pr ts st.orders m.taker_order_id).2 ++
               (applyLeg sz pr ts (applyLeg sz pr ts st.orders m.taker_order_id).1
                 m.maker_order_id).2,
             some (WssError.badSide m.side)⟩ := by
          simp [processMatch, h1, h2, h3, hg, htr, hsd]
        rw [hres]
        exact ⟨o2, ho2, hi2, hs2, hr2, ids2⟩
      | some sd =>
        have hTr : updatesFor id0
            [Notification.trade ⟨ts, { price := pr, size := sz, maker_side := sd }⟩] = [] := by
          simp [updatesFor, notifOrderUpdate]
        have hres : processMatch cvt st m =
            ⟨{ st with orders :=
                 (applyLeg sz pr ts (applyLeg sz pr ts st.orders m.taker_order_id).1
                   m.maker_order_id).1 },
             ((applyLeg sz pr ts st.orders m.taker_order_id).2 ++
               (applyLeg sz pr ts (applyLeg sz pr ts st.orders m.taker_order_id).1
                 m.maker_order_id).2) ++
               [Notification.trade ⟨ts, { price := pr, size := sz, maker_side := sd }⟩],
             none⟩ := by
          simp [processMatch, h1, h2, h3, hg, htr, hsd]
        rw [hres]
        refine ⟨o2, ho2, hi2, ?_, ?_, ids2⟩
        · rw [show (StepResult.mk { st with orders :=
                 (applyLeg sz pr ts (applyLeg sz pr ts st.orders m.taker_order_id).1
                   m.maker_order_id).1 }
               (((applyLeg sz pr ts st.orders m.taker_order_id).2 ++
                 (applyLeg sz pr ts (applyLeg sz pr ts st.orders m.taker_order_id).1
                   m.maker_order_id).2) ++
                 [Notification.trade ⟨ts, { price := pr, size := sz, maker_side := sd }⟩])
               none).outs =
             ((applyLeg sz pr ts st.orders m.taker_order_id).2 ++
               (applyLeg sz pr ts (applyLeg sz pr ts st.orders m.taker_order_id).1
                 m.maker_order_id).2) ++
               [Notification.trade ⟨ts, { price := pr, size := sz, maker_side := sd }⟩] from rfl]
          rw [updatesFor_append, hTr, List.append_nil]
          exact hs2
        · rw [show (StepResult.mk { st with orders :=
                 (applyLeg sz pr ts (applyLeg sz pr ts st.orders m.taker_order_id).1
                   m.maker_order_id).1 }
               (((applyLeg sz pr ts st.orders m.taker_order_id).2 ++
                 (applyLeg sz pr ts (applyLeg sz pr ts st.orders m.taker_order_id).1
                   m.maker_order_id).2) ++
                 [Notification.trade ⟨ts, { price := pr, size := sz, maker_side := sd }⟩])
               none).outs =
             ((applyLeg sz pr ts st.orders m.taker_order_id).2 ++
               (applyLeg sz pr ts (applyLeg sz pr ts st.orders m.taker_order_id).1
                 m.maker_order_id).2) ++
               [Notification.trade ⟨ts, { price := pr, size := sz, maker_side := sd }⟩] from rfl]
          rw [updatesFor_append, hTr, List.append_nil]
          exact hr2
    · have hres : processMatch cvt st m =
          ⟨{ st with orders :=
               (applyLeg sz pr ts (applyLeg sz pr ts st.orders m.taker_order_id).1
                 m.maker_order_id).1 },
           (applyLeg sz pr ts st.orders m.taker_order_id).2 ++
             (applyLeg sz pr ts (applyLeg sz pr ts st.orders m.taker_order_id).1
               m.maker_order_id).2,
           none⟩ := by
        simp [processMatch, h1, h2, h3, hg, htr]
      rw [hres]
      exact ⟨o2, ho2, hi2, hs2, hr2, ids2⟩
  · by_cases htr : flagsContain st.flags TRADES = true
    · cases hsd : convert_gdax_side m.side with
      | none =>
        have hres : processMatch cvt st m = ⟨st, [], some (WssError.badSide m.side)⟩ := by
          simp [processMatch, h1, h2, h3, hg, htr, hsd]
        rw [hres]
        exact ⟨ord, hord, hid, by simp [updatesFor, consumedTotal],
          by simp [updatesFor, runningOk], fun k' => rfl⟩
      | some sd =>
        have hres : processMatch cvt st m =
            ⟨st, [Notification.trade ⟨ts, { price := pr, size := sz, maker_side := sd }⟩],
             none⟩ := by
          simp [processMatch, h1, h2, h3, hg, htr, hsd]
        rw [hres]
        exact ⟨ord, hord, hid,
          by simp [updatesFor, notifOrderUpdate, consumedTotal],
          by simp [updatesFor, notifOrderUpdate, runningOk], fun k' => rfl⟩
    · have hres : processMatch cvt st m = ⟨st, [], none⟩ := by
        simp [processMatch, h1, h2, h3, hg, htr]
      rw [hres]
      exact ⟨ord, hord, hid, by simp [updatesFor, consumedTotal],
        by simp [updatesFor, runningOk], fun k' => rfl⟩

/-- One `parse_message` step on a `"match"`-tagged frame preserves the
tracked-order invariant of `processMatch_spec` (falling through to the
no-op arm when the flag guard fails or the body is malformed). -/
theorem parse_match_invariant (cvt : String → Option Nat) (now : Nat)
    (st : HandlerState) (f : Frame) (oid id0 : String) (ord : OrderConfirmation)
    (htag : f.type_ = "match")
    (hord : alookup st.orders oid = some ord) (hid : ord.order_id = id0)
    (huq : ∀ k' o, alookup st.orders k' = some o → o.order_id = id0 → k' = oid) :
    ∃ ord', alookup (parse_message cvt now st f).st.orders oid = some ord' ∧
      ord'.order_id = id0 ∧
      ord'.size = ord.size - consumedTotal (updatesFor id0 (parse_message cvt now st f).outs) ∧
      runningOk ord.size (updatesFor id0 (parse_message cvt now st f).outs) ∧
      (∀ k', (alookup (parse_message cvt now st f).st.orders k').map (fun o => o.order_id) =
        (alookup st.orders k').map (fun o => o.order_id)) := by
  by_cases hg : flagsContain st.flags (TRADES ||| ORDERS) = true
  · cases hm : f.asMatch with
    | none =>
      have hres : parse_message cvt now st f = ⟨st, [], some WssError.decodeError⟩ := by
        simp [parse_message, htag, hg, hm]
      rw [hres]
      exact ⟨ord, hord, hid, by simp [updatesFor, consumedTotal],
        by simp [updatesFor, runningOk], fun k' => rfl⟩
    | some m =>
      have hres : parse_message cvt now st f = processMatch cvt st m := by
        simp [parse_message, htag, hg, hm]
      rw [hres]
      exact processMatch_spec cvt st m oid id0 ord hord hid huq
  · have hres : parse_message cvt now st f = ⟨st, [], none⟩ := by
      simp [parse_message, htag, hg]
    rw [hres]
    exact ⟨ord, hord, hid, by simp [updatesFor, consumedTotal],
      by simp [updatesFor, runningOk], fun k' => rfl⟩

/-- The receive loop over any sequence of `"match"`-tagged frames preserves
the tracked-order invariant, accumulating the emitted updates. -/
theorem runMessages_match_invariant (cvt : String → Option Nat) (now : Nat)
    (oid id0 : String) (fs : List Frame) :
    ∀ (st : HandlerState) (ord : OrderConfirmation),
      (∀ f ∈ fs, f.type_ = "match") →
      alookup st.orders oid = some ord → ord.order_id = id0 →
      (∀ k o, alookup st.orders k = some o → o.order_id = id0 → k = oid) →
      ∃ ord', alookup (runMessages cvt now st fs).1.orders oid = some ord' ∧
        ord'.order_id = id0 ∧
        ord'.size = ord.size - consumedTotal (updatesFor id0 (runMessages cvt now st fs).2) ∧
        runningOk ord.size (updatesFor id0 (runMessages cvt now st fs).2) := by
  induction fs with
  | nil =>
    intro st ord _ hord hid _
    exact ⟨ord, hord, hid, by simp [runMessages, updatesFor, consumedTotal],
      by simp [runMessages, updatesFor, runningOk]⟩
  | cons f t ih =>
    intro st ord hfs hord hid huq
    obtain ⟨ord1, h1, hi1, hs1, hr1, hids⟩ :=
      parse_match_invariant cvt now st f oid id0 ord (hfs f (List.mem_cons_self f t))
        hord hid huq
    have huq1 := uniq_of_ids st.orders (parse_message cvt now st f).st.orders oid id0 hids huq
    cases he : (parse_message cvt now st f).err with
    | some e =>
      have hrm : runMessages cvt now st (f :: t) =
          ((parse_message cvt now st f).st, (parse_message cvt now st f).outs) := by
        simp [runMessages, he]
      rw [hrm]
      exact ⟨ord1, h1, hi1, hs1, hr1⟩
    | none =>
      obtain ⟨ord2, h2, hi2, hs2, hr2⟩ :=
        ih (parse_message cvt now st f).st ord1
          (fun g hg => hfs g (List.mem_cons_of_mem f hg)) h1 hi1 huq1
      have hrm : runMessages cvt now st (f :: t) =
          ((runMessages cvt now (parse_message cvt now st f).st t).1,
           (parse_message cvt now st f).outs ++
             (runMessages cvt now (parse_message cvt now st f).st t).2) := by
        simp [runMessages, he]
      rw [hrm]
      refine ⟨ord2, h2, hi2, ?_, ?_⟩
      · rw [show ((runMessages cvt now (parse_message cvt now st f).st t).1,
              (parse_message cvt now st f).outs ++
                (runMessages cvt now (parse_message cvt now st f).st t).2).2 =
            (parse_message cvt now st f).outs ++
              (runMessages cvt now (parse_message cvt now st f).st t).2 from rfl]
        rw [updatesFor_append, consumedTotal_append, hs2, hs1]
        ring
      · rw [show ((runMessages cvt now (parse_message cvt now st f).st t).1,
              (parse_message cvt now st f).outs ++
                (runMessages cvt now (parse_message cvt now st f).st t).2).2 =
            (parse_message cvt now st f).outs ++
              (runMessages cvt now (parse_message cvt now st f).st t).2 from rfl]
        rw [updatesFor_append]
        refine runningOk_append _ _ _ hr1 ?_
        rw [hs1] at hr2
        exact hr2

/-! ### C2 -/

/-- C2 counterexample: a single match event consuming 3.0 against a tracked
order of size 1.0 (10 ticks) emits an `OrderUpdate` whose `remaining_size`
is −20 ticks — `remaining_size` does go negative, refuting the claim's
unconditional nonnegativity. -/
theorem c2_counterexample_negative_remaining :
    updatesFor "abc" (runMessages cvt0 0 st2 [matchFrame m2c]).2 =
      [⟨"abc", 30, -20, 5000, 0⟩] ∧ ((-20 : Int) < 0) :=
  ⟨rfl, by decide⟩

/-- C2 (amended): over any sequence of match events applied to an order
tracked in the per-connection order map (whose resolved id no other tracked
order carries), the order's tracked size always equals its initial size
minus the total consumed size of the `OrderUpdate`s emitted for it, and
each emitted `OrderUpdate` carries `remaining_size` equal to the initial
size minus the running sum of `consumed_size` up to and including itself
(`runningOk`).  No nonnegativity is guaranteed: the code does not clamp. -/
theorem c2_remaining_size_invariant (cvt : String → Option Nat) (now : Nat)
    (st : HandlerState) (fs : List Frame) (oid id0 : String)
    (ord : OrderConfirmation)
    (hfs : ∀ f ∈ fs, f.type_ = "match")
    (hord : alookup st.orders oid = some ord) (hid : ord.order_id = id0)
    (huq : ∀ k o, alookup st.orders k = some o → o.order_id = id0 → k = oid) :
    ∃ ord', alookup (runMessages cvt now st fs).1.orders oid = some ord' ∧
      ord'.order_id = id0 ∧
      ord'.size = ord.size - consumedTotal (updatesFor id0 (runMessages cvt now st fs).2) ∧
      runningOk ord.size (updatesFor id0 (runMessages cvt now st fs).2) :=
  runMessages_match_invariant cvt now oid id0 fs st ord hfs hord hid huq

/-- C2 witness: scenario 3 — one match of size 0.4 against the tracked order
`"srv1" => abc` (size 1.0) leaves tracked size 6 = 10 − 4 and the single
emitted update satisfies the running-sum property. -/
theorem c2_witness :
    ∃ ord', alookup (runMessages cvt0 0 st2 [matchFrame m2w]).1.orders "srv1" = some ord' ∧
      ord'.order_id = "abc" ∧
      ord'.size = ordAbc.size -
        consumedTotal (updatesFor "abc" (runMessages cvt0 0 st2 [matchFrame m2w]).2) ∧
      runningOk ordAbc.size (updatesFor "abc" (runMessages cvt0 0 st2 [matchFrame m2w]).2) :=
  c2_remaining_size_invariant cvt0 0 st2 [matchFrame m2w] "srv1" "abc" ordAbc
    (by intro f hf
        rw [List.mem_singleton] at hf
        subst hf
        rfl)
    rfl rfl
    (by intro k o h hio
        by_cases hk : "srv1" = k
        · exact hk.symm
        · simp [alookup, hk] at h)

end TradeRs
